import Mathlib

/-!
Shallow embedding of the two asset-generation scripts of the EastVsWest
repository (`scripts/generate_shadow.py` and `scripts/generate_spritesheet.py`)
together with theorems settling the specification claims about them.

Conventions of the embedding:
* RGBA colors are quadruples of naturals.
* An image produced by a script is modelled at the draw-call level
  (a list of `DrawOp`) or at the pixel level (a function from integer
  pixel coordinates to a color), whichever the claim needs.
* Real-valued geometry (`math.sin`, `math.cos`, `math.radians`) is embedded
  over `ℝ`; the angles the claims single out (0 and 270 degrees) make the
  corresponding expressions exact.
* The file system is a list of existing directories plus an association list
  of files; `save` mirrors opening a file for writing: it fails when the
  parent directory is absent and otherwise shadows any previous entry at
  the same path (overwrite without backup).
-/

namespace EVW

/-- An RGBA color, one byte per channel, as the scripts pass to Pillow. -/
structure RGBA where
  r : ℕ
  g : ℕ
  b : ℕ
  a : ℕ
deriving DecidableEq

/-! ### generate_shadow.py -/

/-- `size = (96, 96)` from generate_shadow.py. -/
def shadow_size : ℕ × ℕ := (96, 96)

/-- The mode string passed to `Image.new` in generate_shadow.py. -/
def shadow_mode : String := "RGBA"

/-- `shadow_color = (0, 0, 0, 100)`: black with 100/255 opacity. -/
def shadow_color : RGBA := ⟨0, 0, 0, 100⟩

/-- The fully transparent background color `(0, 0, 0, 0)`. -/
def clear : RGBA := ⟨0, 0, 0, 0⟩

/-- `shadow_bbox = [20, 55, 76, 85]` (left, top, right, bottom). -/
def shadow_bbox : ℤ × ℤ × ℤ × ℤ := (20, 55, 76, 85)

/-- Membership of pixel `(px, py)` in the filled ellipse of bounding box
`(x0, y0, x1, y1)`: the standard inclusion test for the ellipse centered at
`((x0+x1)/2, (y0+y1)/2)` with semi-axes `(x1-x0)/2` and `(y1-y0)/2`,
written over `ℤ` with doubled coordinates to avoid halves. -/
def inEllipse (x0 y0 x1 y1 px py : ℤ) : Bool :=
  decide ((2*px - (x0+x1))^2 * (y1-y0)^2 + (2*py - (y0+y1))^2 * (x1-x0)^2
            ≤ (x1-x0)^2 * (y1-y0)^2)

/-- The pixel raster of the shadow image: the canvas is created fully
transparent and `draw.ellipse(shadow_bbox, fill=shadow_color)` fills the
ellipse (no outline), so a pixel is `shadow_color` inside the ellipse and
transparent outside. -/
def shadow_pixel (px py : ℤ) : RGBA :=
  if inEllipse 20 55 76 85 px py then shadow_color else clear

/-- The path string passed to `image.save` in generate_shadow.py. -/
def shadow_output_path : String := "../public/shadow.png"

/-! ### The file system model shared by both scripts -/

/-- A file system: the directories that exist, and the files with their
contents (most recent write first). -/
structure FS (α : Type) where
  dirs : List String
  files : List (String × α)

/-- The directory part of a path: everything before the final `/`. -/
def dirname (p : String) : String :=
  String.mk (((p.data.reverse.dropWhile (fun c => c != '/')).drop 1).reverse)

/-- Reading a file: the most recently written content at the path. -/
def lookupFile {α : Type} (fs : FS α) (p : String) : Option α :=
  (fs.files.find? (fun kv => kv.1 == p)).map Prod.snd

/-- Writing a file, as both scripts do through Pillow's `save`: opening the
path for writing fails when the parent directory does not exist (no
directory is ever created), and otherwise replaces any existing file at the
path unconditionally. -/
def save {α : Type} (fs : FS α) (path : String) (content : α) :
    Except String (FS α) :=
  if dirname path ∈ fs.dirs then
    Except.ok ⟨fs.dirs, (path, content) :: fs.files⟩
  else
    Except.error "FileNotFoundError"

/-- The whole run of generate_shadow.py: build the raster and save it to
`shadow_output_path`. -/
def shadow_main (fs : FS (ℤ → ℤ → RGBA)) :
    Except String (FS (ℤ → ℤ → RGBA)) :=
  save fs shadow_output_path shadow_pixel

/-! ### generate_spritesheet.py: constants and the direction table -/

/-- `FRAME_WIDTH = 96`. -/
def FRAME_WIDTH : ℕ := 96

/-- `FRAME_HEIGHT = 96`. -/
def FRAME_HEIGHT : ℕ := 96

/-- `COLUMNS = 6`: frames per direction. -/
def COLUMNS : ℕ := 6

/-- `ROWS = 8`: directions. -/
def ROWS : ℕ := 8

/-- `SPRITE_SHEET_WIDTH = FRAME_WIDTH * COLUMNS`. -/
def SPRITE_SHEET_WIDTH : ℕ := FRAME_WIDTH * COLUMNS

/-- `SPRITE_SHEET_HEIGHT = FRAME_HEIGHT * ROWS`. -/
def SPRITE_SHEET_HEIGHT : ℕ := FRAME_HEIGHT * ROWS

/-- `DIRECTIONS`: the rows of the sprite sheet, top to bottom. -/
def DIRECTIONS : List String :=
  ["South", "South-East", "East", "North-East",
   "North", "North-West", "West", "South-West"]

/-- `angle_map`: the dictionary from row index to emission angle in degrees,
as literally written in `create_sprite_sheet`. -/
def angle_map : List (ℕ × ℕ) :=
  [(0, 90), (1, 45), (2, 0), (3, 315), (4, 270), (5, 225), (6, 180), (7, 135)]

/-- The dictionary lookup `angle_map[row]`; `none` models a `KeyError`. -/
def angleLookup (row : ℕ) : Option ℕ :=
  angle_map.lookup row

/-- The direction table as the specification words it: display name paired
with emission angle in degrees, in row order. -/
def specDirectionAngles : List (String × ℕ) :=
  [("South", 90), ("South-East", 45), ("East", 0), ("North-East", 315),
   ("North", 270), ("North-West", 225), ("West", 180), ("South-West", 135)]

/-! ### generate_spritesheet.py: per-cell geometry -/

/-- `math.radians`: degrees to radians. -/
noncomputable def radians (deg : ℝ) : ℝ := deg * Real.pi / 180

/-- `center_x = x + FRAME_WIDTH // 2` with `x = col * FRAME_WIDTH`. -/
def center_x (col : ℕ) : ℝ := ((col * FRAME_WIDTH + FRAME_WIDTH / 2 : ℕ) : ℝ)

/-- `center_y = y + FRAME_HEIGHT // 2` with `y = row * FRAME_HEIGHT`. -/
def center_y (row : ℕ) : ℝ := ((row * FRAME_HEIGHT + FRAME_HEIGHT / 2 : ℕ) : ℝ)

/-- `animation_offset = math.sin((col / COLUMNS) * math.pi * 2) * 3`. -/
noncomputable def animation_offset (col : ℕ) : ℝ :=
  Real.sin ((col : ℝ) / (COLUMNS : ℝ) * Real.pi * 2) * 3

/-- `body_radius = 25 + animation_offset`. -/
noncomputable def body_radius (col : ℕ) : ℝ := 25 + animation_offset col

/-- `arrow_length = 15`. -/
def arrow_length : ℝ := 15

/-- The arrow endpoint `(arrow_x, arrow_y)` of a cell:
`center + (cos, sin)(radians(angle_map[row])) * arrow_length`; `none` models
the `KeyError` of a failed `angle_map[row]` lookup. -/
noncomputable def arrow_point (row col : ℕ) : Option (ℝ × ℝ) :=
  (angleLookup row).map (fun a =>
    (center_x col + Real.cos (radians (a : ℝ)) * arrow_length,
     center_y row + Real.sin (radians (a : ℝ)) * arrow_length))

/-! ### generate_spritesheet.py: fonts and draw calls -/

/-- A font value: either a concrete truetype font (path and size) as
`ImageFont.truetype` returns, or the face `ImageFont.load_default` returns. -/
inductive Font where
  | truetype : String → ℕ → Font
  | defaultFont : Font
deriving DecidableEq

/-- The try/except around the font lookup: on `ImageFont.truetype` succeeding
its font is used; on ANY failure the handler falls back to
`ImageFont.load_default()`. Totality of this function is the embedding of the
fact that the except-branch recovers instead of re-raising. -/
def fontForLabel (lookup : Except String Font) : Font :=
  match lookup with
  | Except.ok f => f
  | Except.error _ => Font.defaultFont

/-- `body_color = (100, 150, 200, 255)`. -/
def body_color : RGBA := ⟨100, 150, 200, 255⟩

/-- The body outline color `(50, 100, 150, 255)`. -/
def body_outline_color : RGBA := ⟨50, 100, 150, 255⟩

/-- `arrow_color = (255, 200, 0, 255)`. -/
def arrow_color : RGBA := ⟨255, 200, 0, 255⟩

/-- The label fill `(255, 255, 255, 200)`. -/
def label_color : RGBA := ⟨255, 255, 255, 200⟩

/-- One Pillow drawing call of `create_sprite_sheet`, recorded with the
arguments the script passes. -/
inductive DrawOp where
  | ellipse : ℝ → ℝ → ℝ → ℝ → RGBA → Option (RGBA × ℕ) → DrawOp
  | line : ℝ → ℝ → ℝ → ℝ → RGBA → ℕ → DrawOp
  | text : ℝ → ℝ → String → RGBA → Font → DrawOp

/-- The four drawing calls issued for cell `(row, col)` once the angle `a`
(in degrees) has been looked up: body ellipse with outline width 2, arrow
line of width 3, radius-3 dot at the arrow tip, and the column-index label at
offset (5, 5) from the cell origin. -/
noncomputable def cellOpsWithAngle (font : Font) (row col a : ℕ) :
    List DrawOp :=
  [DrawOp.ellipse (center_x col - body_radius col) (center_y row - body_radius col)
     (center_x col + body_radius col) (center_y row + body_radius col)
     body_color (some (body_outline_color, 2)),
   DrawOp.line (center_x col) (center_y row)
     (center_x col + Real.cos (radians (a : ℝ)) * arrow_length)
     (center_y row + Real.sin (radians (a : ℝ)) * arrow_length)
     arrow_color 3,
   DrawOp.ellipse
     (center_x col + Real.cos (radians (a : ℝ)) * arrow_length - 3)
     (center_y row + Real.sin (radians (a : ℝ)) * arrow_length - 3)
     (center_x col + Real.cos (radians (a : ℝ)) * arrow_length + 3)
     (center_y row + Real.sin (radians (a : ℝ)) * arrow_length + 3)
     arrow_color none,
   DrawOp.text ((col * FRAME_WIDTH : ℕ) + 5) ((row * FRAME_HEIGHT : ℕ) + 5)
     (toString col) label_color font]

/-- The drawing calls for cell `(row, col)`: the angle lookup may raise
`KeyError` (`none`); otherwise the four calls above. -/
noncomputable def cellOps (font : Font) (row col : ℕ) : Option (List DrawOp) :=
  (angleLookup row).map (cellOpsWithAngle font row col)

/-- `create_sprite_sheet`: rows iterate over `DIRECTIONS` (outer), columns
over `range(COLUMNS)` (inner); the result is the full list of drawing calls,
or `none` when some angle lookup raises. -/
noncomputable def create_sprite_sheet (lookup : Except String Font) :
    Option (List DrawOp) :=
  (((List.range DIRECTIONS.length).flatMap
      (fun row => (List.range COLUMNS).map (fun col => (row, col)))).mapM
    (fun rc => cellOps (fontForLabel lookup) rc.1 rc.2)).map List.flatten

/-- `output_path = "public/assets/player/player-walk-spritesheet.png"`. -/
def spritesheet_output_path : String :=
  "public/assets/player/player-walk-spritesheet.png"

/-- `main` of generate_spritesheet.py: build the sheet, then
`sprite_sheet.save(output_path, "PNG")` with no exception handling. -/
noncomputable def spritesheet_main (lookup : Except String Font)
    (fs : FS (List DrawOp)) : Except String (FS (List DrawOp)) :=
  match create_sprite_sheet lookup with
  | none => Except.error "KeyError"
  | some ops => save fs spritesheet_output_path ops

/-! ### Bounding boxes of the draw calls, for the cell-containment claim -/

/-- An axis-aligned rectangle of real coordinates. -/
structure Rect where
  x0 : ℝ
  y0 : ℝ
  x1 : ℝ
  y1 : ℝ

/-- A rectangle containing every pixel a draw call touches: an ellipse stays
inside its bounding box (Pillow thickens the outline inwards), a line of
width `w` stays within `w/2` of the segment's bounding box, and a text
drawn at `(x, y)` occupies a glyph box of some extent `(tw, th)`. -/
noncomputable def opBox (tw th : ℝ) : DrawOp → Rect
  | DrawOp.ellipse x0 y0 x1 y1 _ _ => ⟨x0, y0, x1, y1⟩
  | DrawOp.line xa ya xb yb _ w =>
      ⟨min xa xb - (w : ℝ) / 2, min ya yb - (w : ℝ) / 2,
       max xa xb + (w : ℝ) / 2, max ya yb + (w : ℝ) / 2⟩
  | DrawOp.text x y _ _ _ => ⟨x, y, x + tw, y + th⟩

/-- The rectangle `b` lies inside the 96×96 cell of `(row, col)`, whose
pixels are `[col*96, (col+1)*96) × [row*96, (row+1)*96)`. -/
def inCell (b : Rect) (row col : ℕ) : Prop :=
  ((col * FRAME_WIDTH : ℕ) : ℝ) ≤ b.x0 ∧
  b.x1 < (((col + 1) * FRAME_WIDTH : ℕ) : ℝ) ∧
  ((row * FRAME_HEIGHT : ℕ) : ℝ) ≤ b.y0 ∧
  b.y1 < (((row + 1) * FRAME_HEIGHT : ℕ) : ℝ)

/-! ### Theorems -/

/-- Reading back a just-written file returns the written content. -/
theorem find?_cons_self {α : Type} (p : String) (c : α) (l : List (String × α)) :
    List.find? (fun kv => kv.1 == p) ((p, c) :: l) = some (p, c) := by
  simp [List.find?]

/-- C3: the direction table has exactly 8 entries, one per row index 0–7,
pairing each row's fixed name with its fixed emission angle in degrees:
South=90, South-East=45, East=0, North-East=315, North=270, North-West=225,
West=180, South-West=135. -/
theorem direction_table_spec :
    DIRECTIONS.length = 8 ∧
    angle_map.map Prod.fst = List.range 8 ∧
    DIRECTIONS.zip (angle_map.map Prod.snd) = specDirectionAngles :=
  ⟨rfl, rfl, rfl⟩

/-- C10: for every row index produced by iterating over the direction list
(0 through 7), the angle lookup `angle_map[row]` succeeds, so the `KeyError`
branch is unreachable. -/
theorem angle_lookup_total (row : ℕ) (h : row < DIRECTIONS.length) :
    (angleLookup row).isSome = true := by
  have h8 : DIRECTIONS.length = 8 := rfl
  rw [h8] at h
  interval_cases row <;> decide

/-- Witness for C10 at row 0. -/
theorem angle_lookup_total_witness :
    0 < DIRECTIONS.length ∧ (angleLookup 0).isSome = true :=
  ⟨by decide, angle_lookup_total 0 (by decide)⟩

/-- C1 counterexample: the path the shadow generator saves to is the string
`../public/shadow.png`, not `public/shadow.png`, relative to the invocation
directory. -/
theorem shadow_path_counterexample :
    shadow_output_path ≠ "public/shadow.png" := by decide

/-- C1 (amended): the shadow generator writes its image to the fixed path
`../public/shadow.png` relative to the invocation directory, overwriting any
existing file there unconditionally and creating no directory. -/
theorem shadow_save_overwrites (fs : FS (ℤ → ℤ → RGBA))
    (h : "../public" ∈ fs.dirs) :
    ∃ fs1, shadow_main fs = Except.ok fs1 ∧
      lookupFile fs1 shadow_output_path = some shadow_pixel ∧
      fs1.dirs = fs.dirs := by
  have hd : dirname shadow_output_path = "../public" := by decide
  refine ⟨⟨fs.dirs, (shadow_output_path, shadow_pixel) :: fs.files⟩, ?_, ?_, rfl⟩
  · simp [shadow_main, save, hd, h]
  · simp [lookupFile, List.find?]

/-- Witness for C1: a file system whose `../public` directory exists and
already holds a different file at the output path. -/
theorem shadow_save_overwrites_witness :
    "../public" ∈ (FS.mk ["../public"]
        [(shadow_output_path, fun _ _ => clear)] : FS (ℤ → ℤ → RGBA)).dirs ∧
    ∃ fs1, shadow_main (FS.mk ["../public"]
        [(shadow_output_path, fun _ _ => clear)]) = Except.ok fs1 ∧
      lookupFile fs1 shadow_output_path = some shadow_pixel ∧
      fs1.dirs = (FS.mk ["../public"]
        [(shadow_output_path, fun _ _ => clear)] : FS (ℤ → ℤ → RGBA)).dirs :=
  ⟨by simp, shadow_save_overwrites _ (by simp)⟩

/-- C2 counterexample: the pixel at the image center (48, 48) of the 96×96
shadow image has alpha 0, not alpha 100 — the ellipse spans rows 55–85 and
does not reach the image center. -/
theorem shadow_center_alpha_counterexample :
    (shadow_pixel 48 48).a = 0 ∧ (shadow_pixel 48 48).a ≠ 100 := by decide

/-- C2 (amended): the shadow image is 96×96 RGBA, initialized fully
transparent, containing exactly one filled ellipse with bounding box
(20,55)–(76,85), fill black at alpha 100/255 and no outline; every pixel is
either the fill color or transparent, the corner pixels have alpha 0, and the
pixel at the image center (48, 48) has alpha 0 — it lies above the ellipse,
whose own center pixel (48, 70) has alpha 100. -/
theorem shadow_image_spec :
    shadow_size = (96, 96) ∧ shadow_mode = "RGBA" ∧
    shadow_bbox = (20, 55, 76, 85) ∧ shadow_color = ⟨0, 0, 0, 100⟩ ∧
    (∀ px py : ℤ,
      shadow_pixel px py = shadow_color ∨ shadow_pixel px py = clear) ∧
    (shadow_pixel 48 48).a = 0 ∧ (shadow_pixel 48 70).a = 100 ∧
    (shadow_pixel 0 0).a = 0 ∧ (shadow_pixel 95 0).a = 0 ∧
    (shadow_pixel 0 95).a = 0 ∧ (shadow_pixel 95 95).a = 0 := by
  refine ⟨rfl, rfl, rfl, rfl, ?_, by decide, by decide, by decide, by decide,
    by decide, by decide⟩
  intro px py
  unfold shadow_pixel
  split
  · exact Or.inl rfl
  · exact Or.inr rfl

/-- C5: the body radius `25 + 3*sin(2π·col/6)` evaluates to exactly 25 at
column 0 and at column 3, so the two radii are equal; the radius does not
depend on the row at all (it is a function of the column alone). -/
theorem body_radius_symmetry :
    body_radius 0 = body_radius 3 ∧ body_radius 0 = 25 ∧ body_radius 3 = 25 := by
  have h0 : body_radius 0 = 25 := by
    unfold body_radius animation_offset
    norm_num
  have h3 : body_radius 3 = 25 := by
    unfold body_radius animation_offset
    have harg : ((3 : ℕ) : ℝ) / ((COLUMNS : ℕ) : ℝ) * Real.pi * 2 = Real.pi := by
      norm_num [COLUMNS]
      ring
    rw [harg, Real.sin_pi]
    norm_num
  exact ⟨h0.trans h3.symm, h0, h3⟩

/-- C7: the font lookup of the label-drawing step never propagates an error:
a successful `ImageFont.truetype` lookup is used as-is, and ANY failure is
caught and replaced by the built-in default font, so the cell-drawing step
always receives a font. -/
theorem font_fallback_total :
    (∀ f, fontForLabel (Except.ok f) = f) ∧
    (∀ e, fontForLabel (Except.error e) = Font.defaultFont) :=
  ⟨fun _ => rfl, fun _ => rfl⟩

/-- C4: in row 2 ("East", angle 0°) the arrow endpoint is exactly
`(center_x + 15, center_y)`, and in row 4 ("North", angle 270°) it is exactly
`(center_x, center_y - 15)`, for every column. -/
theorem arrow_endpoint_east_north (col : ℕ) (h : col < COLUMNS) :
    arrow_point 2 col = some (center_x col + 15, center_y 2) ∧
    arrow_point 4 col = some (center_x col, center_y 4 - 15) := by
  have h2 : angleLookup 2 = some 0 := by decide
  have h4 : angleLookup 4 = some 270 := by decide
  have e0 : radians (0 : ℝ) = 0 := by
    unfold radians
    ring
  have e270 : radians (270 : ℝ) = Real.pi + Real.pi / 2 := by
    unfold radians
    ring
  have hc : Real.cos (radians (270 : ℝ)) = 0 := by
    rw [e270, Real.cos_add, Real.cos_pi, Real.sin_pi, Real.cos_pi_div_two,
      Real.sin_pi_div_two]
    ring
  have hs : Real.sin (radians (270 : ℝ)) = -1 := by
    rw [e270, Real.sin_add, Real.cos_pi, Real.sin_pi, Real.cos_pi_div_two,
      Real.sin_pi_div_two]
    ring
  constructor
  · simp [arrow_point, h2, e0, arrow_length, Real.cos_zero, Real.sin_zero]
  · simp [arrow_point, h4, hc, hs, arrow_length]
    ring

/-- Witness for C4 at column 0. -/
theorem arrow_endpoint_east_north_witness :
    0 < COLUMNS ∧
    (arrow_point 2 0 = some (center_x 0 + 15, center_y 2) ∧
     arrow_point 4 0 = some (center_x 0, center_y 4 - 15)) :=
  ⟨by decide, arrow_endpoint_east_north 0 (by decide)⟩

/-- C8: when the directory `public/assets/player` does not exist, the
sprite-sheet script's save step fails with an uncaught error — no silent
success and no directory creation. -/
theorem spritesheet_missing_dir_fails (lookup : Except String Font)
    (fs : FS (List DrawOp)) (h : ¬ "public/assets/player" ∈ fs.dirs) :
    ∃ e, spritesheet_main lookup fs = Except.error e := by
  have hd : dirname spritesheet_output_path = "public/assets/player" := by decide
  cases hc : create_sprite_sheet lookup with
  | none => exact ⟨"KeyError", by simp [spritesheet_main, hc]⟩
  | some ops =>
      refine ⟨"FileNotFoundError", ?_⟩
      simp [spritesheet_main, hc, save, hd, h]

/-- Witness for C8: the empty file system. -/
theorem spritesheet_missing_dir_fails_witness :
    ¬ "public/assets/player" ∈ (FS.mk ([] : List String)
        ([] : List (String × List DrawOp))).dirs ∧
    ∃ e, spritesheet_main (Except.error "no font")
        (FS.mk [] []) = Except.error e :=
  ⟨by simp, spritesheet_missing_dir_fails _ _ (by simp)⟩

/-- C6: both generator runs are deterministic: neither takes input, draws
randomness, or embeds time, so the content written at the output path is the
same no matter which file system state the run starts from — two runs yield
equal output images. -/
theorem generators_deterministic (lookup : Except String Font)
    (fs1 fs2 : FS (List DrawOp)) (gs1 gs2 : FS (ℤ → ℤ → RGBA))
    (h1 : "public/assets/player" ∈ fs1.dirs)
    (h2 : "public/assets/player" ∈ fs2.dirs)
    (h3 : "../public" ∈ gs1.dirs) (h4 : "../public" ∈ gs2.dirs) :
    (spritesheet_main lookup fs1).toOption.map
        (fun f => lookupFile f spritesheet_output_path) =
      (spritesheet_main lookup fs2).toOption.map
        (fun f => lookupFile f spritesheet_output_path) ∧
    (shadow_main gs1).toOption.map
        (fun f => lookupFile f shadow_output_path) =
      (shadow_main gs2).toOption.map
        (fun f => lookupFile f shadow_output_path) := by
  have hd : dirname spritesheet_output_path = "public/assets/player" := by decide
  have hd2 : dirname shadow_output_path = "../public" := by decide
  constructor
  · cases hc : create_sprite_sheet lookup with
    | none => simp [spritesheet_main, hc]
    | some ops =>
        simp [spritesheet_main, hc, save, hd, h1, h2, lookupFile,
          Except.toOption, find?_cons_self]
  · simp [shadow_main, save, hd2, h3, h4, lookupFile, Except.toOption,
      find?_cons_self]

/-- Witness for C6: two concrete file systems per script, one of them already
holding stale content at the output path. -/
theorem generators_deterministic_witness :
    "public/assets/player" ∈ (FS.mk ["public/assets/player"]
        ([] : List (String × List DrawOp))).dirs ∧
    "public/assets/player" ∈ (FS.mk ["public/assets/player"]
        [(spritesheet_output_path, ([] : List DrawOp))]).dirs ∧
    "../public" ∈ (FS.mk ["../public"]
        ([] : List (String × (ℤ → ℤ → RGBA)))).dirs ∧
    "../public" ∈ (FS.mk ["../public"]
        [(shadow_output_path, fun _ _ => clear)] : FS (ℤ → ℤ → RGBA)).dirs ∧
    ((spritesheet_main (Except.error "no font")
          (FS.mk ["public/assets/player"] [])).toOption.map
        (fun f => lookupFile f spritesheet_output_path) =
      (spritesheet_main (Except.error "no font")
          (FS.mk ["public/assets/player"]
            [(spritesheet_output_path, [])])).toOption.map
        (fun f => lookupFile f spritesheet_output_path) ∧
    (shadow_main (FS.mk ["../public"] [])).toOption.map
        (fun f => lookupFile f shadow_output_path) =
      (shadow_main (FS.mk ["../public"]
          [(shadow_output_path, fun _ _ => clear)])).toOption.map
        (fun f => lookupFile f shadow_output_path)) :=
  ⟨by simp, by simp, by simp, by simp,
   generators_deterministic (Except.error "no font") _ _ _ _
     (by simp) (by simp) (by simp) (by simp)⟩

/-- C9: every drawing operation of cell `(row, col)` — body ellipse (radius
between 22 and 28 around the cell center), the arrow line of length 15 and
width 3, the radius-3 arrow-tip dot, and the frame label at offset (5, 5)
with glyph extent `(tw, th)` — touches only pixels inside the cell's 96×96
region, so no cell's content overwrites another cell. -/
theorem cell_ops_stay_in_cell (font : Font) (row col : ℕ) (tw th : ℝ)
    (hrow : row < ROWS) (hcol : col < COLUMNS)
    (htw0 : 0 ≤ tw) (htw : tw ≤ 90) (hth0 : 0 ≤ th) (hth : th ≤ 90) :
    (22 ≤ body_radius col ∧ body_radius col ≤ 28) ∧
    ∀ op ∈ (cellOps font row col).getD [], inCell (opBox tw th op) row col := by
  have hs1 : -1 ≤ Real.sin ((col : ℝ) / (COLUMNS : ℝ) * Real.pi * 2) :=
    Real.neg_one_le_sin _
  have hs2 : Real.sin ((col : ℝ) / (COLUMNS : ℝ) * Real.pi * 2) ≤ 1 :=
    Real.sin_le_one _
  have hrad1 : 22 ≤ body_radius col := by
    unfold body_radius animation_offset
    linarith
  have hrad2 : body_radius col ≤ 28 := by
    unfold body_radius animation_offset
    linarith
  refine ⟨⟨hrad1, hrad2⟩, ?_⟩
  cases hl : angleLookup row with
  | none => simp [cellOps, hl]
  | some a =>
    have hc1 : -1 ≤ Real.cos (radians (a : ℝ)) := Real.neg_one_le_cos _
    have hc2 : Real.cos (radians (a : ℝ)) ≤ 1 := Real.cos_le_one _
    have hn1 : -1 ≤ Real.sin (radians (a : ℝ)) := Real.neg_one_le_sin _
    have hn2 : Real.sin (radians (a : ℝ)) ≤ 1 := Real.sin_le_one _
    have hcx : center_x col = (col : ℝ) * 96 + 48 := by
      unfold center_x FRAME_WIDTH
      push_cast
      ring
    have hcy : center_y row = (row : ℝ) * 96 + 48 := by
      unfold center_y FRAME_HEIGHT
      push_cast
      ring
    have hminx : center_x col - 15 ≤
        min (center_x col) (center_x col + Real.cos (radians (a : ℝ)) * 15) :=
      le_min (by linarith) (by linarith)
    have hmaxx : max (center_x col) (center_x col + Real.cos (radians (a : ℝ)) * 15)
        ≤ center_x col + 15 :=
      max_le (by linarith) (by linarith)
    have hminy : center_y row - 15 ≤
        min (center_y row) (center_y row + Real.sin (radians (a : ℝ)) * 15) :=
      le_min (by linarith) (by linarith)
    have hmaxy : max (center_y row) (center_y row + Real.sin (radians (a : ℝ)) * 15)
        ≤ center_y row + 15 :=
      max_le (by linarith) (by linarith)
    intro op hop
    simp only [cellOps, hl, Option.map_some', Option.getD_some,
      cellOpsWithAngle, arrow_length, List.mem_cons, List.mem_singleton,
      List.not_mem_nil, or_false] at hop
    rcases hop with rfl | rfl | rfl | rfl <;>
      simp only [opBox, inCell, FRAME_WIDTH, FRAME_HEIGHT] <;>
      push_cast <;>
      refine ⟨by linarith, by linarith, by linarith, by linarith⟩

/-- Witness for C9 at cell (0, 0) with a 6×11 glyph box. -/
theorem cell_ops_stay_in_cell_witness :
    ((0 : ℕ) < ROWS ∧ (0 : ℕ) < COLUMNS ∧ (0 : ℝ) ≤ 6 ∧ (6 : ℝ) ≤ 90 ∧
      (0 : ℝ) ≤ 11 ∧ (11 : ℝ) ≤ 90) ∧
    ((22 ≤ body_radius 0 ∧ body_radius 0 ≤ 28) ∧
     ∀ op ∈ (cellOps Font.defaultFont 0 0).getD [],
       inCell (opBox 6 11 op) 0 0) :=
  ⟨⟨by decide, by decide, by norm_num, by norm_num, by norm_num, by norm_num⟩,
   cell_ops_stay_in_cell Font.defaultFont 0 0 6 11 (by decide) (by decide)
     (by norm_num) (by norm_num) (by norm_num) (by norm_num)⟩
